import Mathlib

/-!
Shallow embedding of the Tauri command bridge of the repository
(`src-tauri/src/commands.rs` and `src-tauri/src/main.rs`).

Modelling conventions:
* Rust `String` is Lean `String`; Rust `Result<T, String>` is `Except String T`.
* The `#[cfg(target_os = ...)]` conditional compilation in
  `open_external_link` is modelled by a `TargetOS` parameter: each value of
  `TargetOS` selects exactly the code that the corresponding build target
  compiles in (`other` stands for any build target that is none of the
  three, for which all three `cfg` blocks are compiled out).
* `std::process::Command::new(cmd).arg(...).spawn()` is modelled by a
  `SpawnOracle`, an environment-supplied function giving, for a command
  name and argument list, the OS outcome of the spawn attempt: an
  `OsError` (whose `message` field is the rendering that Rust's
  `e.to_string()` produces) or a `Child` (the handle to the launched
  process; its fields stand for the child's later behaviour, which the
  code never inspects).
* Besides its `Result`, the model of `open_external_link` returns the list
  of spawn attempts it performed (command name and argument list), making
  the only side effect of the bridge visible for reasoning.
-/

/-- Embedding of `struct AppConfig` (`commands.rs`, lines 3-8): three string
fields, derived `Serialize`/`Deserialize`. -/
structure AppConfig where
  flask_api_url : String
  mcp_api_url : String
  app_version : String
deriving DecidableEq, Repr

/-- Embedding of `get_app_config` (`commands.rs`, lines 10-17): builds the
record from the three string literals of the source. -/
def get_app_config : AppConfig :=
  { flask_api_url := "http://localhost:5432"
    mcp_api_url := "http://localhost:3456"
    app_version := "1.0.0" }

/-- Embedding of `check_backend_health` (`commands.rs`, lines 19-24): the
body is `Ok(true)` (the `async` wrapper adds no behaviour; every call
yields this value). -/
def check_backend_health : Except String Bool :=
  Except.ok true

/-- Build target selecting which `cfg` branch of `open_external_link` is
compiled in. `other` is any target that is not Linux, macOS or Windows. -/
inductive TargetOS where
  | linux
  | macos
  | windows
  | other
deriving DecidableEq, Repr

/-- Model of `std::process::Child`: the handle returned by a successful
spawn. Its fields stand for the behaviour of the launched process after
the spawn, which `open_external_link` never looks at. -/
structure Child where
  exitCode : Int
  output : String
deriving DecidableEq, Repr

/-- Model of `std::io::Error` as produced by a failed spawn; `message` is
the string rendering that `e.to_string()` yields. -/
structure OsError where
  message : String
deriving DecidableEq, Repr

/-- Environment model of `Command::spawn`: the OS decides, per command name
and argument list, whether the spawn succeeds (giving a `Child`) or fails
(giving an `OsError`). -/
def SpawnOracle : Type :=
  String → List String → Except OsError Child

/-- Embedding of one `Command::new(cmd).args(args).spawn().map_err(|e| e.to_string())?`
step: the `Child` of a successful spawn is discarded, a failure is mapped
to its string rendering. -/
def spawnStep (spawn : SpawnOracle) (cmd : String) (args : List String) :
    Except String Unit :=
  match spawn cmd args with
  | Except.ok _child => Except.ok ()
  | Except.error e => Except.error e.message

/-- Embedding of `open_external_link` (`commands.rs`, lines 26-50).
For each build target exactly the block kept by `cfg` runs; the returned
list records the spawn attempts made (command and arguments), which is the
function's only side effect. On a target that is none of the three, all
blocks are compiled out and the function is just `Ok(())`. -/
def open_external_link (os : TargetOS) (spawn : SpawnOracle) (url : String) :
    Except String Unit × List (String × List String) :=
  match os with
  | TargetOS.linux => (spawnStep spawn "xdg-open" [url], [("xdg-open", [url])])
  | TargetOS.macos => (spawnStep spawn "open" [url], [("open", [url])])
  | TargetOS.windows => (spawnStep spawn "cmd" ["/C", "start", url], [("cmd", ["/C", "start", url])])
  | TargetOS.other => (Except.ok (), [])

/-- Invocations of the three commands registered in `main.rs`
(`tauri::generate_handler![get_app_config, check_backend_health,
open_external_link]`). -/
inductive Invocation where
  | getAppConfig
  | checkBackendHealth
  | openExternalLink (url : String)

/-- Result of one bridge invocation, tagged per command. -/
inductive InvocationResult where
  | config (c : AppConfig)
  | health (r : Except String Bool)
  | link (r : Except String Unit)

/-- Process-wide observable state of the bridge. `commands.rs` and
`main.rs` declare no static, managed or otherwise shared mutable data, so
the only observable process-wide history is the trace of OS spawn attempts
made so far. -/
structure BridgeState where
  spawned : List (String × List String)
deriving DecidableEq

/-- Dispatch of one registered command (the `invoke_handler` of `main.rs`):
runs the command's embedding and appends its spawn attempts, if any, to
the trace. -/
def invoke (os : TargetOS) (spawn : SpawnOracle) (s : BridgeState)
    (i : Invocation) : InvocationResult × BridgeState :=
  match i with
  | Invocation.getAppConfig => (InvocationResult.config get_app_config, s)
  | Invocation.checkBackendHealth => (InvocationResult.health check_backend_health, s)
  | Invocation.openExternalLink url =>
      let r := open_external_link os spawn url
      (InvocationResult.link r.1, { spawned := s.spawned ++ r.2 })

/-- JSON values, the fragment relevant to serde's derived serialization of
`AppConfig` (an object of string fields). -/
inductive Json where
  | str (s : String)
  | obj (fields : List (String × Json))

/-- Derived `Serialize` for `AppConfig`: an object whose keys are the
field names, each mapped to the field's string value. -/
def serializeAppConfig (c : AppConfig) : Json :=
  Json.obj
    [("flask_api_url", Json.str c.flask_api_url),
     ("mcp_api_url", Json.str c.mcp_api_url),
     ("app_version", Json.str c.app_version)]

/-- Look up a key in a JSON object's field list (first match). -/
def lookupField : List (String × Json) → String → Option Json
  | [], _ => none
  | (k', v) :: rest, k => if k' = k then some v else lookupField rest k

/-- Extract the string of a JSON string value. -/
def Json.asStr : Json → Option String
  | Json.str s => some s
  | _ => none

/-- Field access on a JSON value: only objects have fields. -/
def Json.getField : Json → String → Option Json
  | Json.obj fields, k => lookupField fields k
  | _, _ => none

/-- Derived `Deserialize` for `AppConfig`: requires the three named fields
to be present with string values; fails (returns `none`) otherwise. -/
def deserializeAppConfig (j : Json) : Option AppConfig := do
  let f ← (← j.getField "flask_api_url").asStr
  let m ← (← j.getField "mcp_api_url").asStr
  let v ← (← j.getField "app_version").asStr
  some { flask_api_url := f, mcp_api_url := m, app_version := v }

/-- Predicate on two spawn outcomes: same outcome of the spawn attempt
itself (both succeeded, or both failed with the same OS error), with the
launched children left arbitrary. -/
def sameSpawnOutcome : Except OsError Child → Except OsError Child → Prop
  | Except.ok _, Except.ok _ => True
  | Except.error e₁, Except.error e₂ => e₁ = e₂
  | _, _ => False

theorem spawnStep_ok_or_error (spawn : SpawnOracle) (cmd : String)
    (args : List String) :
    spawnStep spawn cmd args = Except.ok () ∨
      ∃ s, spawnStep spawn cmd args = Except.error s := by
  unfold spawnStep
  cases spawn cmd args with
  | ok c => exact Or.inl rfl
  | error e => exact Or.inr ⟨e.message, rfl⟩

theorem spawnStep_congr (spawn₁ spawn₂ : SpawnOracle) (cmd : String)
    (args : List String)
    (h : sameSpawnOutcome (spawn₁ cmd args) (spawn₂ cmd args)) :
    spawnStep spawn₁ cmd args = spawnStep spawn₂ cmd args := by
  unfold spawnStep
  unfold sameSpawnOutcome at h
  cases h₁ : spawn₁ cmd args <;> cases h₂ : spawn₂ cmd args <;>
    rw [h₁, h₂] at h <;> simp_all

/-- C1: `get_app_config` always returns the record with
`flask_api_url = "http://localhost:5432"`,
`mcp_api_url = "http://localhost:3456"` and `app_version = "1.0.0"`,
exactly these three string values. -/
theorem get_app_config_fixed_values :
    get_app_config =
      { flask_api_url := "http://localhost:5432"
        mcp_api_url := "http://localhost:3456"
        app_version := "1.0.0" } :=
  rfl

/-- C2: `check_backend_health` returns `Ok(true)` unconditionally: every
dispatch of it, from any prior state, yields `Ok(true)` and changes
nothing; it is never `Ok(false)` and never an error. -/
theorem check_backend_health_always_ok_true :
    check_backend_health = Except.ok true ∧
    check_backend_health ≠ Except.ok false ∧
    (∀ e : String, check_backend_health ≠ Except.error e) ∧
    ∀ (os : TargetOS) (spawn : SpawnOracle) (s : BridgeState),
      invoke os spawn s Invocation.checkBackendHealth =
        (InvocationResult.health (Except.ok true), s) :=
  ⟨rfl, fun h => Except.ok.inj h |> Bool.noConfusion,
   fun _ h => Except.noConfusion h,
   fun _ _ _ => rfl⟩

/-- C3: on a Linux build `open_external_link` spawns `xdg-open` with the
url as sole argument, on macOS `open` with the url as sole argument, on
Windows `cmd` with arguments `/C`, `start`, url; each build performs
exactly that one invocation, with the url string passed through unchanged. -/
theorem open_external_link_platform_launchers :
    ∀ (spawn : SpawnOracle) (url : String),
      (open_external_link TargetOS.linux spawn url).2 = [("xdg-open", [url])] ∧
      (open_external_link TargetOS.macos spawn url).2 = [("open", [url])] ∧
      (open_external_link TargetOS.windows spawn url).2 =
        [("cmd", ["/C", "start", url])] :=
  fun _ _ => ⟨rfl, rfl, rfl⟩

/-- C4: on each supported platform, `open_external_link` returns `Ok(())`
exactly when the launcher spawn succeeds and `Err(e.to_string())` with the
OS error's string rendering exactly when it fails; the exhaustive match
shows no other outcome exists. -/
theorem open_external_link_result_is_spawn_outcome :
    ∀ (spawn : SpawnOracle) (url : String),
      ((open_external_link TargetOS.linux spawn url).1 =
        match spawn "xdg-open" [url] with
        | Except.ok _ => Except.ok ()
        | Except.error e => Except.error e.message) ∧
      ((open_external_link TargetOS.macos spawn url).1 =
        match spawn "open" [url] with
        | Except.ok _ => Except.ok ()
        | Except.error e => Except.error e.message) ∧
      ((open_external_link TargetOS.windows spawn url).1 =
        match spawn "cmd" ["/C", "start", url] with
        | Except.ok _ => Except.ok ()
        | Except.error e => Except.error e.message) :=
  fun _ _ => ⟨rfl, rfl, rfl⟩

/-- C5: `open_external_link` on any string, the empty string included, is a
total function that terminates with either `Ok(())` or `Err(message)` (the
embedding is total, so no panic is possible), and on each of the three
supported build targets it still makes a spawn attempt. -/
theorem open_external_link_total_and_attempts :
    ∀ (os : TargetOS) (spawn : SpawnOracle) (url : String),
      ((open_external_link os spawn url).1 = Except.ok () ∨
        ∃ s, (open_external_link os spawn url).1 = Except.error s) ∧
      (open_external_link TargetOS.linux spawn url).2 ≠ [] ∧
      (open_external_link TargetOS.macos spawn url).2 ≠ [] ∧
      (open_external_link TargetOS.windows spawn url).2 ≠ [] := by
  intro os spawn url
  refine ⟨?_, by simp [open_external_link], by simp [open_external_link],
    by simp [open_external_link]⟩
  cases os with
  | linux => exact spawnStep_ok_or_error spawn "xdg-open" [url]
  | macos => exact spawnStep_ok_or_error spawn "open" [url]
  | windows => exact spawnStep_ok_or_error spawn "cmd" ["/C", "start", url]
  | other => exact Or.inl rfl

/-- C6: `get_app_config` is total, pure and idempotent: its embedding has
no error outcome (its type is `AppConfig`, not a `Result`), every dispatch
leaves the bridge state unchanged, and any two calls, from any states and
environments, return equal records. -/
theorem get_app_config_pure_idempotent :
    (∀ (os : TargetOS) (spawn : SpawnOracle) (s : BridgeState),
      invoke os spawn s Invocation.getAppConfig =
        (InvocationResult.config get_app_config, s)) ∧
    ∀ (os₁ os₂ : TargetOS) (spawn₁ spawn₂ : SpawnOracle) (s₁ s₂ : BridgeState),
      (invoke os₁ spawn₁ s₁ Invocation.getAppConfig).1 =
        (invoke os₂ spawn₂ s₂ Invocation.getAppConfig).1 :=
  ⟨fun _ _ _ => rfl, fun _ _ _ _ _ _ => rfl⟩

/-- C7: the bridge holds no mutable process-wide state: the result of every
invocation is independent of the state left by earlier or concurrent
calls, and the only state change any call makes is recording the spawn
attempts of `open_external_link` (the other two commands change nothing). -/
theorem bridge_no_shared_mutable_state :
    ∀ (os : TargetOS) (spawn : SpawnOracle) (s₁ s₂ : BridgeState)
      (i : Invocation),
      (invoke os spawn s₁ i).1 = (invoke os spawn s₂ i).1 ∧
      (invoke os spawn s₁ Invocation.getAppConfig).2 = s₁ ∧
      (invoke os spawn s₁ Invocation.checkBackendHealth).2 = s₁ ∧
      ∀ url : String,
        (invoke os spawn s₁ (Invocation.openExternalLink url)).2.spawned =
          s₁.spawned ++ (open_external_link os spawn url).2 := by
  intro os spawn s₁ s₂ i
  refine ⟨?_, rfl, rfl, fun _ => rfl⟩
  cases i <;> rfl

/-- C8: `open_external_link` is fire-and-forget: for any two spawn
environments that agree on the outcome of every spawn attempt while their
launched children behave arbitrarily differently, the function's whole
result (value and trace) is identical — nothing of the child is retained
or inspected after the spawn. -/
theorem open_external_link_fire_and_forget :
    ∀ (os : TargetOS) (spawn₁ spawn₂ : SpawnOracle) (url : String),
      (∀ cmd args, sameSpawnOutcome (spawn₁ cmd args) (spawn₂ cmd args)) →
      open_external_link os spawn₁ url = open_external_link os spawn₂ url := by
  intro os spawn₁ spawn₂ url h
  cases os with
  | linux =>
      exact congrArg (fun r => (r, [("xdg-open", [url])]))
        (spawnStep_congr spawn₁ spawn₂ "xdg-open" [url] (h _ _))
  | macos =>
      exact congrArg (fun r => (r, [("open", [url])]))
        (spawnStep_congr spawn₁ spawn₂ "open" [url] (h _ _))
  | windows =>
      exact congrArg (fun r => (r, [("cmd", ["/C", "start", url])]))
        (spawnStep_congr spawn₁ spawn₂ "cmd" ["/C", "start", url] (h _ _))
  | other => rfl

/-- Spawn environment in which every attempt succeeds and the child exits
cleanly. -/
def spawnAllOkClean : SpawnOracle :=
  fun _ _ => Except.ok { exitCode := 0, output := "opened" }

/-- Spawn environment in which every attempt succeeds but the child later
crashes with different output. -/
def spawnAllOkCrash : SpawnOracle :=
  fun _ _ => Except.ok { exitCode := 1, output := "crashed" }

/-- Witness for C8: with two concrete environments whose spawns all succeed
but whose children behave differently, `open_external_link` gives the same
result on a Linux build at url `http://test`. -/
theorem open_external_link_fire_and_forget_witness :
    open_external_link TargetOS.linux spawnAllOkClean "http://test" =
      open_external_link TargetOS.linux spawnAllOkCrash "http://test" :=
  open_external_link_fire_and_forget TargetOS.linux spawnAllOkClean
    spawnAllOkCrash "http://test" (fun _ _ => trivial)

/-- C9: each call to `open_external_link` makes at most one spawn attempt:
exactly one on Linux, macOS and Windows builds, and zero on any other
build target, where it returns `Ok(())` without launching anything. -/
theorem open_external_link_spawn_count :
    ∀ (spawn : SpawnOracle) (url : String),
      (open_external_link TargetOS.linux spawn url).2.length = 1 ∧
      (open_external_link TargetOS.macos spawn url).2.length = 1 ∧
      (open_external_link TargetOS.windows spawn url).2.length = 1 ∧
      open_external_link TargetOS.other spawn url = (Except.ok (), []) :=
  fun _ _ => ⟨rfl, rfl, rfl, rfl⟩

/-- C10: `AppConfig` round-trips through its derived serialization:
deserializing the serialized form of any record of three strings yields
the original record. -/
theorem appConfig_serialization_round_trip :
    ∀ c : AppConfig, deserializeAppConfig (serializeAppConfig c) = some c := by
  intro c
  cases c
  rfl
